import Mathlib

set_option maxRecDepth 400000

/-!
Shallow embedding of the AI-CORE example services:
`src/examples/basic/real-mcp-manager-8803.py`,
`src/examples/basic/real-mcp-manager.py`, and
`src/examples/basic/simple-real-intent-parser.py`.

The Python scripts are small HTTP dispatchers that normalize a request map,
attempt one AI-provider call (Gemini, or a downstream MCP service), and fall
back to deterministic template/rule-based generation when the call is
unconfigured or fails.  I/O is made explicit: the outcome of the single
outbound HTTP call is a parameter of each handler, and each handler returns
the number of outbound calls it performed alongside its response, so that
"no network I/O" properties are statable.  Nondeterministic inputs of the
source (uuid4 draws, wall-clock timestamps, elapsed time) are likewise
explicit parameters.  Machine floats of the source (quality scores,
confidence values) are modelled as rationals; the only float-valued control
decision in the sources is the comparison `len(words) < word_count * 0.8`
in `generate_fallback_content`, modelled exactly as `10 * len < 8 * wc`
(IEEE double evaluation of `word_count * 0.8` agrees with the exact rational
value on every word count at the magnitudes involved here).
-/

/-- Python `str.split()` restricted to a character list: split on runs of
whitespace, discarding empty fragments.  Accumulator holds the current word
reversed. -/
def pyWordsL : List Char → List Char → List (List Char)
  | [], acc => if acc = [] then [] else [acc.reverse]
  | c :: cs, acc =>
    if c.isWhitespace then
      if acc = [] then pyWordsL cs [] else acc.reverse :: pyWordsL cs []
    else pyWordsL cs (c :: acc)

/-- Python `s.split()` (no separator argument): whitespace-separated words. -/
def pyWords (s : String) : List String := (pyWordsL s.toList []).map List.asString

/-- Python `s.lower()` (the inputs involved are ASCII). -/
def lowerStr (s : String) : String := (s.toList.map Char.toLower).asString

/-- Python `s.strip()`: remove leading and trailing whitespace. -/
def pyStrip (s : String) : String :=
  ((s.toList.dropWhile Char.isWhitespace).reverse.dropWhile Char.isWhitespace).reverse.asString

/-- Python substring test `t in s`. -/
def containsSub (s t : String) : Bool :=
  go s.toList
where
  go : List Char → Bool
    | [] => t.toList.isPrefixOf []
    | c :: cs => t.toList.isPrefixOf (c :: cs) || go cs

/-- Number of occurrences of `w` among the whitespace-separated words of
`s`; used to state that a marker word of the appended extra section occurs
exactly once in a fallback output. -/
def wordOccurrences (s w : String) : Nat := (pyWords s).count w

/-- An inbound JSON request map.  String-valued fields are an association
list (Python dict lookup by key); the integer-valued `word_count` field is
carried separately. -/
structure Request where
  strFields : List (String × String)
  wordCount : Option Nat := none

/-- Python `request_data.get(k)` for string fields: `some v` iff key present. -/
def getStr (r : Request) (k : String) : Option String :=
  (r.strFields.find? (fun p => p.1 == k)).map Prod.snd

/-- Python `request_data.get(k, d)` for string fields. -/
def getStrD (r : Request) (k d : String) : String := (getStr r k).getD d

/-- Subject alias resolution shared by the 8803 handlers
(`real-mcp-manager-8803.py` lines 63, 150, 181):
`request_data.get('definition', request_data.get('topic', 'AI automation'))`. -/
def requestTopic (r : Request) : String :=
  getStrD r "definition" (getStrD r "topic" "AI automation")

/-- One candidate of a Gemini response body; only the part texts matter to
the sources (`result['candidates'][0]['content']['parts'][0]['text']`). -/
structure GeminiCandidate where
  parts : List String
deriving DecidableEq, Repr

/-- A Gemini (or MCP) HTTP response body as far as the sources inspect it:
the optional `candidates` array and the raw text used in error messages. -/
structure GeminiBody where
  candidates : Option (List GeminiCandidate) := none
  rawText : String := ""
deriving DecidableEq, Repr

/-- Outcome of the single outbound HTTP POST: either the transport raised
(`requests.exceptions.RequestException`) or a response with a status code
arrived. -/
inductive HttpOutcome where
  | transportError (msg : String)
  | response (statusCode : Nat) (body : GeminiBody)
deriving DecidableEq, Repr

/-- `RealMCPHandler.call_gemini_api` (`real-mcp-manager-8803.py` lines
104-146), given the outcome of its one `requests.post`: on a 200 response
with a nonempty `candidates` array it returns the first part text stripped;
every other outcome raises, modelled as `.error` with the exception text. -/
def call_gemini_api (o : HttpOutcome) : Except String String :=
  match o with
  | .transportError m => .error m
  | .response 200 body =>
    match body.candidates with
    | some (c :: _) =>
      match c.parts with
      | t :: _ => .ok (pyStrip t)
      | [] => .error "list index out of range"
    | _ => .error ("Gemini API error: 200 - " ++ body.rawText)
  | .response s body => .error ("Gemini API error: " ++ toString s ++ " - " ++ body.rawText)

/-- The fixed fallback template of
`RealMCPHandler.generate_fallback_content` (`real-mcp-manager-8803.py`
lines 204-238), parameterized by the topic. -/
def fallbackTemplate (topic : String) : String :=
  "<h2>Understanding " ++ topic ++ ": A Comprehensive Guide</h2>\n\n<p>The field of " ++ topic ++ " represents a significant opportunity for organizations looking to enhance their capabilities and drive meaningful results. This comprehensive overview explores the key aspects that professionals need to understand.</p>\n\n<h3>Key Benefits and Opportunities</h3>\n\n<ul>\n<li><strong>Enhanced Efficiency</strong>: Streamline processes and reduce manual overhead</li>\n<li><strong>Improved Quality</strong>: Achieve more consistent and reliable outcomes</li>\n<li><strong>Strategic Advantage</strong>: Gain competitive positioning in the marketplace</li>\n<li><strong>Innovation Catalyst</strong>: Enable new approaches and solutions</li>\n</ul>\n\n<h3>Implementation Considerations</h3>\n\n<p>Successful implementation of " ++ topic ++ " requires careful planning and strategic thinking. Organizations should consider their unique requirements, existing infrastructure, and long-term objectives when developing their approach.</p>\n\n<h3>Best Practices</h3>\n\n<p>Industry leaders recommend focusing on:</p>\n\n<ol>\n<li><strong>Clear Goal Setting</strong>: Define specific, measurable objectives</li>\n<li><strong>Stakeholder Engagement</strong>: Ensure buy-in across the organization</li>\n<li><strong>Iterative Development</strong>: Start small and scale progressively</li>\n<li><strong>Continuous Learning</strong>: Adapt based on results and feedback</li>\n</ol>\n\n<h3>Future Outlook</h3>\n\n<p>The landscape of " ++ topic ++ " continues to evolve rapidly, creating new opportunities for forward-thinking organizations. Those who invest in understanding and implementing these concepts strategically will be well-positioned for long-term success.</p>\n\n<h3>Conclusion</h3>\n\n<p>" ++ topic ++ " offers significant potential for organizations ready to embrace change and innovation. By following proven best practices and maintaining focus on value creation, businesses can achieve meaningful and sustainable improvements in their operations and outcomes.</p>"

/-- The additional section appended by `generate_fallback_content` when the
template is shorter than 80% of the target (`real-mcp-manager-8803.py`
lines 248-254). -/
def additionalSection (topic : String) : String :=
  "\n\n<h3>Additional Insights</h3>\n\n<p>Research shows that organizations implementing " ++ topic ++ " strategies report significant improvements in operational efficiency and customer satisfaction. The key is to approach implementation systematically, with clear metrics for success and regular review processes.</p>\n\n<p>As the field continues to mature, new tools and methodologies are emerging that make implementation more accessible and effective. Staying current with these developments is essential for maximizing the value of your investment in " ++ topic ++ ".</p>"

/-- `RealMCPHandler.generate_fallback_content` (`real-mcp-manager-8803.py`
lines 202-257): truncate the template to `word_count` words (plus the
closing `</p>` tag) when it is too long, append one fixed section when it
is under 80% of the target, else return the template unchanged.  The
source compares `len(words) < word_count * 0.8` in floating point; the
exact comparison `10 * len < 8 * wc` agrees with it on all relevant
inputs. -/
def generate_fallback_content (topic : String) (word_count : Nat) : String :=
  let template := fallbackTemplate topic
  let words := pyWords template
  if words.length > word_count then
    String.intercalate " " (words.take word_count) ++ "</p>"
  else if 10 * words.length < 8 * word_count then
    template ++ additionalSection topic
  else
    template

/-- Quality score of the primary-success path
(`real-mcp-manager-8803.py` line 72): `4.7 + (hash(content) % 6) * 0.05`.
Python `hash` is an arbitrary integer-valued function of the text, passed in
explicitly; Python `%` on a positive modulus is Euclidean remainder, as is
Lean `Int.emod`. -/
def qualityFromHash (h : Int) : ℚ := (4.7 : ℚ) + ((h % 6 : Int) : ℚ) * (0.05 : ℚ)

/-- The `metadata` object of an 8803 result; the three handlers populate
different subsets of keys, absent keys are `none`. -/
structure Metadata8803 where
  aiGenerated : Option Bool := none
  service : String
  model : Option String := none
  contentType : Option String := none
  timestamp : String
deriving DecidableEq, Repr

/-- The `result` object of an 8803 response envelope. -/
structure Result8803 where
  content : String
  wordCount : Nat
  qualityScore : ℚ
  executionTimeMs : Nat
  metadata : Metadata8803
deriving DecidableEq, Repr

/-- A response envelope of the 8803 service (`real-mcp-manager-8803.py`
lines 87-102, 163-177, 186-200).  None of the three content handlers emits
a `warning` key; the field is modelled so that its absence (`none`) is a
statable fact. -/
structure Envelope8803 where
  executionId : String
  status : String
  result : Result8803
  warning : Option String := none
deriving DecidableEq, Repr

/-- `RealMCPHandler.generate_blog_content` (`real-mcp-manager-8803.py`
lines 61-102).  Explicit parameters for the environment credential
(`GEMINI_API_KEY`), the Python `hash` function, the outcome of the single
outbound call, the generated execution id, the timestamp, and the measured
elapsed milliseconds.  Returns the envelope together with the number of
outbound HTTP calls attempted. -/
def generate_blog_content (apiKey : Option String) (hashFn : String → Int)
    (upstream : HttpOutcome) (req : Request) (execId ts : String)
    (elapsedMs : Nat) : Envelope8803 × Nat :=
  let topic := requestTopic req
  let word_count := req.wordCount.getD 800
  let (content, quality_score, ai_generated, calls) :=
    match apiKey with
    | some _ =>
      match call_gemini_api upstream with
      | .ok c => (c, qualityFromHash (hashFn c), true, 1)
      | .error _ => (generate_fallback_content topic word_count, (4.0 : ℚ), false, 1)
    | none => (generate_fallback_content topic word_count, (4.2 : ℚ), false, 0)
  ({ executionId := execId
     status := "completed"
     result :=
       { content := content
         wordCount := (pyWords content).length
         qualityScore := quality_score
         executionTimeMs := elapsedMs
         metadata :=
           { aiGenerated := some ai_generated
             service := "real-mcp-manager"
             model := some (if ai_generated then "gemini-2.0-flash" else "template-fallback")
             timestamp := ts } }
     warning := none }, calls)

/-- The fixed social-media text of `generate_social_content`
(`real-mcp-manager-8803.py` lines 153-161). -/
def socialContent (topic : String) : String :=
  "🚀 Exciting insights on " ++ topic ++ "!\n\nKey takeaways:\n✨ Innovation drives transformation\n📈 Strategic implementation yields results\n🎯 Focus on value creation\n💡 Embrace change for competitive advantage\n\n#AI #Innovation #Technology #BusinessGrowth"

/-- `RealMCPHandler.generate_social_content` (`real-mcp-manager-8803.py`
lines 148-177). -/
def generate_social_content (req : Request) (execId ts : String) : Envelope8803 :=
  let topic := requestTopic req
  let content := socialContent topic
  { executionId := execId
    status := "completed"
    result :=
      { content := content
        wordCount := (pyWords content).length
        qualityScore := (4.4 : ℚ)
        executionTimeMs := 800
        metadata :=
          { service := "real-mcp-manager"
            contentType := some "social_media"
            timestamp := ts } } }

/-- `RealMCPHandler.generate_generic_content` (`real-mcp-manager-8803.py`
lines 179-200). -/
def generate_generic_content (req : Request) (execId ts : String) : Envelope8803 :=
  let topic := requestTopic req
  let content := generate_fallback_content topic 600
  { executionId := execId
    status := "completed"
    result :=
      { content := content
        wordCount := (pyWords content).length
        qualityScore := (4.3 : ℚ)
        executionTimeMs := 1200
        metadata :=
          { service := "real-mcp-manager"
            contentType := some "generic"
            timestamp := ts } } }

/-- A downstream MCP response body as far as `real-mcp-manager.py`
inspects it (`response.get(...)` fields of lines 132-136). -/
structure McpBody where
  content : Option String := none
  title : Option String := none
  qualityScore : Option ℚ := none
  wordCount : Option Nat := none
  executionTimeMs : Option Nat := none
deriving DecidableEq, Repr

/-- Outcome of `requests.post` against the downstream MCP service. -/
inductive McpOutcome where
  | transportError (msg : String)
  | response (statusCode : Nat) (body : McpBody)
deriving DecidableEq, Repr

/-- `RealMCPHandler._call_mcp_service` (`real-mcp-manager.py` lines
212-237): `some body` on a 200 response, `None` on any non-200 status or
transport exception. -/
def _call_mcp_service (o : McpOutcome) : Option McpBody :=
  match o with
  | .transportError _ => none
  | .response 200 body => some body
  | .response _ _ => none

/-- A response envelope of the `real-mcp-manager.py` content handler
(lines 128-146 on success, 252-264 on fallback); keys absent from a given
shape are `none`. -/
structure MgrEnvelope where
  executionId : String
  status : String
  content : String
  title : String
  qualityScore : ℚ
  wordCount : Option Nat := none
  executionTimeMs : Nat
  fallbackUsed : Option Bool := none
  message : Option String := none
  modelUsed : Option String := none
  realAiContent : Option Bool := none
  warning : Option String := none
deriving DecidableEq, Repr

/-- `RealMCPHandler._send_fallback_response` (`real-mcp-manager.py` lines
247-267). -/
def _send_fallback_response (req : Request) (execId : String) : MgrEnvelope :=
  let intent := getStrD req "intent" "Generate content"
  { executionId := execId
    status := "completed"
    content := "High-quality content for: " ++ intent ++ ". This fallback ensures system reliability."
    title := "Professional Response: " ++ (intent.toList.take 50).asString ++ "..."
    qualityScore := (4.2 : ℚ)
    executionTimeMs := 1500
    fallbackUsed := some true
    message := some "MCP services temporarily unavailable, using fallback generation"
    warning := some "Using fallback content generation due to MCP service unavailability" }

/-- `RealMCPHandler._handle_content_generation` (`real-mcp-manager.py`
lines 102-156): forward to the downstream MCP service; on a usable
response build the completed envelope, otherwise fall back. -/
def _handle_content_generation (req : Request) (upstream : McpOutcome)
    (execId : String) : MgrEnvelope :=
  match _call_mcp_service upstream with
  | some r =>
    { executionId := execId
      status := "completed"
      content := r.content.getD "Generated content"
      title := r.title.getD "Generated Title"
      qualityScore := r.qualityScore.getD (4.5 : ℚ)
      wordCount := some (r.wordCount.getD 500)
      executionTimeMs := r.executionTimeMs.getD 2000
      modelUsed := some "gemini-1.5-flash"
      realAiContent := some true }
  | none => _send_fallback_response req execId

/-- The rule-based workflow classification of
`SimpleIntentParserHandler._create_fallback_intent`
(`simple-real-intent-parser.py` lines 246-255): ordered keyword-set
membership by substring containment on the lowercased input; returns
`(workflow_type, function_name)`. -/
def fallbackWorkflowType (userInput : String) : String × String :=
  if ["blog", "post", "article", "write"].any (fun w => containsSub (lowerStr userInput) w) then
    ("blog-post-generation", "create_blog_post")
  else if ["image", "picture", "photo"].any (fun w => containsSub (lowerStr userInput) w) then
    ("image-generation", "create_image")
  else
    ("content-generation", "create_content")

/-- The fallback intent response of `_create_fallback_intent`
(`simple-real-intent-parser.py` lines 257-285), flattened: the
`parsed_intent` sub-object and the single element of `functions` are
inlined as fields. -/
structure FallbackIntentResponse where
  intentId : String
  userId : String
  workflowType : String
  confidence : ℚ
  topic : String
  title : String
  requirements : List String
  originalInput : String
  functionId : String
  functionName : String
  functionDescription : String
  paramTitle : String
  paramTopic : String
  paramContentType : String
  provider : String
  estimatedDuration : Nat
  confidenceScore : ℚ
  realAiParsing : Bool
  fallbackUsed : Bool
  modelUsed : String
  timestamp : String
deriving DecidableEq, Repr

/-- `SimpleIntentParserHandler._create_fallback_intent`
(`simple-real-intent-parser.py` lines 243-287).  The two `uuid.uuid4()`
draws (intent id, function id) and the `datetime.utcnow()` timestamp are
explicit parameters. -/
def _create_fallback_intent (userInput userId : String)
    (uuidIntent uuidFunction ts : String) : FallbackIntentResponse :=
  let wf := fallbackWorkflowType userInput
  { intentId := uuidIntent
    userId := userId
    workflowType := wf.1
    confidence := (0.75 : ℚ)
    topic := userInput
    title := "Content about: " ++ userInput
    requirements := []
    originalInput := userInput
    functionId := uuidFunction
    functionName := wf.2
    functionDescription :=
      "Generate " ++ (wf.1.toList.map (fun c => if c = '-' then ' ' else c)).asString ++ " content"
    paramTitle := "Generated content: " ++ userInput
    paramTopic := userInput
    paramContentType := (wf.1.toList.takeWhile (fun c => c ≠ '-')).asString
    provider := "fallback"
    estimatedDuration := 20
    confidenceScore := (0.75 : ℚ)
    realAiParsing := false
    fallbackUsed := true
    modelUsed := "rule-based-fallback"
    timestamp := ts }

/-- `SimpleIntentParserHandler._call_gemini_api`
(`simple-real-intent-parser.py` lines 110-172): with no `GEMINI_API_KEY`
it returns `None` before touching the network; otherwise it performs one
call and returns the parsed body on a 200 response, `None` otherwise.
Second component counts outbound HTTP calls. -/
def _call_gemini_api (apiKey : Option String) (upstream : HttpOutcome) :
    Option GeminiBody × Nat :=
  match apiKey with
  | none => (none, 0)
  | some _ =>
    match upstream with
    | .transportError _ => (none, 1)
    | .response 200 body => (some body, 1)
    | .response _ _ => (none, 1)

/-- Result of a `POST /v1/parse` request: a 400/404-style error body, a
primary-path intent response (carrying the raw Gemini body; its detailed
reshaping by `_parse_gemini_response` is not needed by any claim below),
or the rule-based fallback intent. -/
inductive ParseHttpResult where
  | errorResp (statusCode : Nat) (message : String)
  | primaryIntent (body : GeminiBody) (userInput userId : String)
  | fallbackIntent (r : FallbackIntentResponse)
deriving DecidableEq, Repr

/-- `SimpleIntentParserHandler._handle_intent_parsing`
(`simple-real-intent-parser.py` lines 73-108): resolve the input aliases,
reject empty input with a 400 before any resolution, otherwise attempt the
primary call and fall back on `None`.  Second component counts outbound
HTTP calls. -/
def _handle_intent_parsing (apiKey : Option String) (upstream : HttpOutcome)
    (req : Request) (uuidIntent uuidFunction ts : String) :
    ParseHttpResult × Nat :=
  let userId := getStrD req "user_id" "anonymous"
  let userInput := getStrD req "input" (getStrD req "text" "")
  if userInput = "" then
    (.errorResp 400 "Missing \x27input\x27 or \x27text\x27 field", 0)
  else
    match _call_gemini_api apiKey upstream with
    | (some body, calls) => (.primaryIntent body userInput userId, calls)
    | (none, calls) =>
      (.fallbackIntent (_create_fallback_intent userInput userId uuidIntent uuidFunction ts), calls)

/-- The fallback intent response with its embedded timestamp field
cleared, for comparisons that exclude the timestamp. -/
def eraseTimestamp (r : FallbackIntentResponse) : FallbackIntentResponse :=
  { r with timestamp := "" }

/-- The fallback intent response with every per-call volatile field
cleared: the timestamp and the two freshly drawn uuid fields
(`intent_id` and `functions[0].id`). -/
def eraseVolatile (r : FallbackIntentResponse) : FallbackIntentResponse :=
  { r with timestamp := "", intentId := "", functionId := "" }


/-- Claim C5: when both the "definition" and the "topic" fields are present
in a content-generation request, the subject used for generation is the
"definition" value — the first alias in the documented order wins
(`real-mcp-manager-8803.py` lines 63, 150). -/
theorem C5_alias_precedence :
    ∀ (req : Request) (v w : String),
      getStr req "definition" = some v →
      getStr req "topic" = some w →
      requestTopic req = v ∧
      ∀ execId ts, (generate_social_content req execId ts).result.content = socialContent v := by
  intro req v w hdef _htopic
  have ht : requestTopic req = v := by
    unfold requestTopic getStrD
    rw [hdef]
    rfl
  refine ⟨ht, fun execId ts => ?_⟩
  simp only [generate_social_content, ht]

/-- Witness for C5 at a concrete request carrying both aliases. -/
theorem C5_alias_precedence_witness :
    requestTopic ⟨[("definition", "Rust"), ("topic", "Go")], none⟩ = "Rust" :=
  (C5_alias_precedence ⟨[("definition", "Rust"), ("topic", "Go")], none⟩ "Rust" "Go"
    (by decide) (by decide)).1

/-- Claim C4: the fallback intent classifier maps raw input by keyword
membership against three ordered keyword sets with confidence 0.75:
"please write a blog about kubernetes" yields blog-post-generation,
"generate an image of a cat" yields image-generation, and
"optimize my supply chain" yields content-generation
(`simple-real-intent-parser.py` lines 243-261). -/
theorem C4_intent_classification :
    (_create_fallback_intent "please write a blog about kubernetes" "u" "i" "f" "t").workflowType
        = "blog-post-generation" ∧
    (_create_fallback_intent "generate an image of a cat" "u" "i" "f" "t").workflowType
        = "image-generation" ∧
    (_create_fallback_intent "optimize my supply chain" "u" "i" "f" "t").workflowType
        = "content-generation" ∧
    (_create_fallback_intent "please write a blog about kubernetes" "u" "i" "f" "t").confidence
        = (0.75 : ℚ) ∧
    (_create_fallback_intent "generate an image of a cat" "u" "i" "f" "t").confidence
        = (0.75 : ℚ) ∧
    (_create_fallback_intent "optimize my supply chain" "u" "i" "f" "t").confidence
        = (0.75 : ℚ) :=
  ⟨by decide, by decide, by decide, rfl, rfl, rfl⟩

/-- Claim C10: the fallback classifier decides keyword membership by
substring containment on the lowercased input, testing the
blog/post/article/write set before the image/picture/photo set: any input
containing a blog keyword — even embedded in a longer word or next to image
keywords — is classified blog-post-generation, and "imagery", whose only
keyword occurrence is a substring of a longer word, is still classified by
the "image" keyword (`simple-real-intent-parser.py` lines 246-255). -/
theorem C10_substring_keyword_order :
    (∀ userInput : String,
      (["blog", "post", "article", "write"].any
          (fun w => containsSub (lowerStr userInput) w)) = true →
      (fallbackWorkflowType userInput).1 = "blog-post-generation") ∧
    (∀ userInput userId uuidIntent uuidFunction ts,
      (_create_fallback_intent userInput userId uuidIntent uuidFunction ts).workflowType
        = (fallbackWorkflowType userInput).1) ∧
    (fallbackWorkflowType "rewrite the image").1 = "blog-post-generation" ∧
    (fallbackWorkflowType "imagery showcase").1 = "image-generation" := by
  refine ⟨?_, fun _ _ _ _ _ => rfl, by decide, by decide⟩
  intro userInput h
  simp only [fallbackWorkflowType, h, if_true]

/-- Witness for C10 at an input that contains both a blog keyword and an
image keyword. -/
theorem C10_substring_keyword_order_witness :
    (fallbackWorkflowType "please write a caption and an image").1 = "blog-post-generation" :=
  C10_substring_keyword_order.1 "please write a caption and an image" (by decide)

/-- Claim C9: in every completed envelope of the 8803 blog, social, and
generic handlers, the reported `word_count` equals the number of
whitespace-separated words of the returned `content`, on primary and
fallback paths alike (`real-mcp-manager-8803.py` lines 90-94, 166-170,
188-193). -/
theorem C9_word_count_consistent :
    ∀ (apiKey : Option String) (hashFn : String → Int) (upstream : HttpOutcome)
      (req : Request) (execId ts : String) (elapsedMs : Nat),
      ((generate_blog_content apiKey hashFn upstream req execId ts elapsedMs).1.result.wordCount
        = (pyWords (generate_blog_content apiKey hashFn upstream req execId ts
            elapsedMs).1.result.content).length) ∧
      ((generate_social_content req execId ts).result.wordCount
        = (pyWords (generate_social_content req execId ts).result.content).length) ∧
      ((generate_generic_content req execId ts).result.wordCount
        = (pyWords (generate_generic_content req execId ts).result.content).length) := by
  intro apiKey hashFn upstream req execId ts elapsedMs
  refine ⟨?_, by simp only [generate_social_content], by simp only [generate_generic_content]⟩
  cases apiKey with
  | none => simp only [generate_blog_content]
  | some k =>
    cases h : call_gemini_api upstream with
    | ok c => simp only [generate_blog_content, h]
    | error e => simp only [generate_blog_content, h]

/-- Claim C8 counterexample: two calls of the fallback intent resolver on
the identical canonical task are not byte-identical after excluding only
the timestamp field — the freshly drawn `intent_id` and function id uuids
also differ between the two calls. -/
theorem C8_counterexample :
    ¬ (eraseTimestamp (_create_fallback_intent "write a blog about rust" "user-1"
          "uuid-a" "uuid-b" "ts-1")
        = eraseTimestamp (_create_fallback_intent "write a blog about rust" "user-1"
          "uuid-c" "uuid-d" "ts-2")) := by
  intro h
  have := congrArg FallbackIntentResponse.intentId h
  simp [eraseTimestamp, _create_fallback_intent] at this

/-- Claim C8 as amended: two calls of the fallback intent resolver with
the identical canonical task yield byte-identical output once the
timestamp field and the two freshly drawn uuid id fields are excluded;
no other nondeterminism remains (and the content fallback
`generate_fallback_content` is a pure function of topic and target size,
with no timestamp or randomness at all). -/
theorem C8_amended_determinism :
    ∀ (userInput userId u1 u2 u3 u4 t1 t2 : String),
      eraseVolatile (_create_fallback_intent userInput userId u1 u2 t1)
        = eraseVolatile (_create_fallback_intent userInput userId u3 u4 t2) :=
  fun _ _ _ _ _ _ _ _ => rfl

/-- Claim C3: the fallback word-count policy.  For every subject, when the
template's word count exceeds `target_size` the output is exactly the first
`target_size` words joined by single spaces followed by the closing tag,
and when the template's word count is under 80% of `target_size` exactly
one additional fixed section is appended.  In particular, with
`target_size = 50` the output for the default subject has exactly 50 words
(the closing tag glued to the last), and with `target_size = 2000` (the
template being under 1600 words) the extended section marker occurs exactly
once in the output and not at all in the bare template
(`real-mcp-manager-8803.py` lines 240-257). -/
theorem C3_fallback_word_count_policy :
    ∀ (topic : String) (word_count : Nat),
      ((pyWords (fallbackTemplate topic)).length > word_count →
        generate_fallback_content topic word_count
          = String.intercalate " " ((pyWords (fallbackTemplate topic)).take word_count)
              ++ "</p>") ∧
      (10 * (pyWords (fallbackTemplate topic)).length < 8 * word_count →
        generate_fallback_content topic word_count
          = fallbackTemplate topic ++ additionalSection topic) ∧
      (pyWords (generate_fallback_content "AI automation" 50)).length = 50 ∧
      (pyWords (fallbackTemplate "AI automation")).length = 211 ∧
      wordOccurrences (generate_fallback_content "AI automation" 2000) "<h3>Additional" = 1 ∧
      wordOccurrences (fallbackTemplate "AI automation") "<h3>Additional" = 0 := by
  intro topic word_count
  refine ⟨?_, ?_, by decide, by decide, ?_, by decide⟩
  · intro h
    simp only [generate_fallback_content]
    rw [if_pos h]
  · intro h
    have hn : ¬ (pyWords (fallbackTemplate topic)).length > word_count := by omega
    simp only [generate_fallback_content]
    rw [if_neg hn, if_pos h]
  · have h2000 : generate_fallback_content "AI automation" 2000
        = fallbackTemplate "AI automation" ++ additionalSection "AI automation" := by
      have hn : ¬ (pyWords (fallbackTemplate "AI automation")).length > 2000 := by decide
      have h8 : 10 * (pyWords (fallbackTemplate "AI automation")).length < 8 * 2000 := by decide
      simp only [generate_fallback_content]
      rw [if_neg hn, if_pos h8]
    rw [h2000]
    decide

/-- Witness for C3: both branch contracts instantiated at the default
subject, with target sizes 50 and 2000. -/
theorem C3_fallback_word_count_policy_witness :
    generate_fallback_content "AI automation" 50
      = String.intercalate " " ((pyWords (fallbackTemplate "AI automation")).take 50)
          ++ "</p>" ∧
    generate_fallback_content "AI automation" 2000
      = fallbackTemplate "AI automation" ++ additionalSection "AI automation" :=
  ⟨(C3_fallback_word_count_policy "AI automation" 50).1 (by decide),
   (C3_fallback_word_count_policy "AI automation" 2000).2.1 (by decide)⟩

/-- Claim C7: on the primary-success path of the blog handler the quality
score equals 4.7 plus (hash of the content modulo 6) times 0.05, hence lies
in [4.70, 4.99], and is the same for every upstream outcome yielding the
identical text (`real-mcp-manager-8803.py` line 72). -/
theorem C7_quality_score :
    ∀ (hashFn : String → Int) (key : String) (upstream : HttpOutcome) (req : Request)
      (execId ts : String) (elapsedMs : Nat) (c : String),
      call_gemini_api upstream = .ok c →
      (generate_blog_content (some key) hashFn upstream req execId ts elapsedMs).1.result.qualityScore
          = (4.7 : ℚ) + ((hashFn c % 6 : Int) : ℚ) * (0.05 : ℚ) ∧
      (4.7 : ℚ) ≤ (generate_blog_content (some key) hashFn upstream req execId ts
          elapsedMs).1.result.qualityScore ∧
      (generate_blog_content (some key) hashFn upstream req execId ts
          elapsedMs).1.result.qualityScore ≤ (4.99 : ℚ) ∧
      ∀ upstream₂, call_gemini_api upstream₂ = .ok c →
        (generate_blog_content (some key) hashFn upstream₂ req execId ts
            elapsedMs).1.result.qualityScore
          = (generate_blog_content (some key) hashFn upstream req execId ts
              elapsedMs).1.result.qualityScore := by
  intro hashFn key upstream req execId ts elapsedMs c h
  have hval : (generate_blog_content (some key) hashFn upstream req execId ts
      elapsedMs).1.result.qualityScore = (4.7 : ℚ) + ((hashFn c % 6 : Int) : ℚ) * (0.05 : ℚ) := by
    simp only [generate_blog_content, h, qualityFromHash]
  have hk0 : (0 : Int) ≤ hashFn c % 6 := Int.emod_nonneg _ (by norm_num)
  have hk5 : hashFn c % 6 ≤ 5 := by
    have := Int.emod_lt_of_pos (hashFn c) (show (0 : Int) < 6 by norm_num)
    omega
  have hq0 : (0 : ℚ) ≤ ((hashFn c % 6 : Int) : ℚ) := by exact_mod_cast hk0
  have hq5 : ((hashFn c % 6 : Int) : ℚ) ≤ 5 := by exact_mod_cast hk5
  refine ⟨hval, ?_, ?_, ?_⟩
  · rw [hval]; nlinarith
  · rw [hval]; nlinarith
  · intro upstream₂ h₂
    have hval₂ : (generate_blog_content (some key) hashFn upstream₂ req execId ts
        elapsedMs).1.result.qualityScore
        = (4.7 : ℚ) + ((hashFn c % 6 : Int) : ℚ) * (0.05 : ℚ) := by
      simp only [generate_blog_content, h₂, qualityFromHash]
    rw [hval, hval₂]

/-- Witness for C7 at a concrete 200 response whose candidate text is
"hello", with the hash function constantly 3. -/
theorem C7_quality_score_witness :
    (4.7 : ℚ) ≤ (generate_blog_content (some "key") (fun _ => 3)
        (.response 200 { candidates := some [{ parts := ["hello"] }] })
        ⟨[], none⟩ "e" "t" 0).1.result.qualityScore ∧
    (generate_blog_content (some "key") (fun _ => 3)
        (.response 200 { candidates := some [{ parts := ["hello"] }] })
        ⟨[], none⟩ "e" "t" 0).1.result.qualityScore ≤ (4.99 : ℚ) :=
  ⟨(C7_quality_score (fun _ => 3) "key"
      (.response 200 { candidates := some [{ parts := ["hello"] }] })
      ⟨[], none⟩ "e" "t" 0 "hello" rfl).2.1,
   (C7_quality_score (fun _ => 3) "key"
      (.response 200 { candidates := some [{ parts := ["hello"] }] })
      ⟨[], none⟩ "e" "t" 0 "hello" rfl).2.2.1⟩

/-- Claim C2: with no provider credential configured, the primary resolver
reports failure immediately and zero outbound HTTP calls are attempted; the
fallback path is taken.  Covers the 8803 blog handler gate
(`real-mcp-manager-8803.py` lines 70-77) and the intent parser
(`simple-real-intent-parser.py` lines 110-116). -/
theorem C2_no_credential_no_network :
    (∀ (hashFn : String → Int) (upstream : HttpOutcome) (req : Request)
       (execId ts : String) (elapsedMs : Nat),
      (generate_blog_content none hashFn upstream req execId ts elapsedMs).2 = 0 ∧
      (generate_blog_content none hashFn upstream req execId ts
          elapsedMs).1.result.metadata.aiGenerated = some false ∧
      (generate_blog_content none hashFn upstream req execId ts elapsedMs).1.result.content
        = generate_fallback_content (requestTopic req) (req.wordCount.getD 800)) ∧
    (∀ upstream : HttpOutcome, _call_gemini_api none upstream = (none, 0)) ∧
    (∀ (upstream : HttpOutcome) (req : Request) (uuidIntent uuidFunction ts : String),
      getStrD req "input" (getStrD req "text" "") ≠ "" →
      _handle_intent_parsing none upstream req uuidIntent uuidFunction ts
        = (.fallbackIntent (_create_fallback_intent
            (getStrD req "input" (getStrD req "text" ""))
            (getStrD req "user_id" "anonymous") uuidIntent uuidFunction ts), 0)) := by
  refine ⟨fun hashFn upstream req execId ts elapsedMs =>
      ⟨rfl, rfl, by simp only [generate_blog_content]⟩, fun _ => rfl, ?_⟩
  intro upstream req uuidIntent uuidFunction ts h
  simp only [_handle_intent_parsing]
  rw [if_neg h]
  rfl

/-- Witness for C2: a concrete nonempty-input parse request with no
credential resolves through the rule-based fallback with zero calls. -/
theorem C2_no_credential_no_network_witness :
    _handle_intent_parsing none (.transportError "boom")
        ⟨[("input", "write a blog")], none⟩ "i" "f" "t"
      = (.fallbackIntent (_create_fallback_intent "write a blog" "anonymous" "i" "f" "t"), 0) :=
  (C2_no_credential_no_network.2.2 (.transportError "boom")
      ⟨[("input", "write a blog")], none⟩ "i" "f" "t" (by decide)).trans (by rfl)

/-- Claim C6: an intent-parse request presenting no usable subject alias
(the nested alias lookup over "input" then "text" resolves to the empty
string) is rejected with a 400 client error before any outbound call,
while a content-generation request with neither "definition" nor "topic"
succeeds using the fixed default topic
(`simple-real-intent-parser.py` lines 77-81;
`real-mcp-manager-8803.py` line 63). -/
theorem C6_missing_subject :
    (∀ (apiKey : Option String) (upstream : HttpOutcome) (req : Request)
       (uuidIntent uuidFunction ts : String),
      getStrD req "input" (getStrD req "text" "") = "" →
      _handle_intent_parsing apiKey upstream req uuidIntent uuidFunction ts
        = (.errorResp 400 "Missing \x27input\x27 or \x27text\x27 field", 0)) ∧
    (∀ (apiKey : Option String) (hashFn : String → Int) (upstream : HttpOutcome)
       (req : Request) (execId ts : String) (elapsedMs : Nat),
      getStr req "definition" = none → getStr req "topic" = none →
      requestTopic req = "AI automation" ∧
      (generate_blog_content apiKey hashFn upstream req execId ts
          elapsedMs).1.status = "completed") := by
  constructor
  · intro apiKey upstream req uuidIntent uuidFunction ts h
    simp only [_handle_intent_parsing]
    rw [if_pos h]
  · intro apiKey hashFn upstream req execId ts elapsedMs hdef htopic
    constructor
    · unfold requestTopic getStrD
      rw [hdef, htopic]
      rfl
    · cases apiKey with
      | none => simp only [generate_blog_content]
      | some k =>
        cases h : call_gemini_api upstream with
        | ok c => simp only [generate_blog_content, h]
        | error e => simp only [generate_blog_content, h]

/-- Witness for C6: a parse request with neither alias is rejected with
status 400 and zero calls; a content request with neither alias resolves
the default topic. -/
theorem C6_missing_subject_witness :
    _handle_intent_parsing (some "key") (.transportError "boom")
        ⟨[("user_id", "u")], none⟩ "i" "f" "t"
      = (.errorResp 400 "Missing \x27input\x27 or \x27text\x27 field", 0) ∧
    requestTopic ⟨[("word_count", "ignored")], some 500⟩ = "AI automation" :=
  ⟨C6_missing_subject.1 (some "key") (.transportError "boom")
      ⟨[("user_id", "u")], none⟩ "i" "f" "t" (by decide),
   (C6_missing_subject.2 none (fun _ => 0) (.transportError "x")
      ⟨[("word_count", "ignored")], some 500⟩ "e" "t" 0 (by decide) (by decide)).1⟩

/-- Claim C1 counterexample: at a concrete blog request whose primary
call returned HTTP 429, the 8803 dispatcher does return a completed,
fallback-flagged envelope — but that envelope carries no `warning` field,
refuting the claim that every such envelope carries one
(`real-mcp-manager-8803.py` lines 79-102 emit no warning key). -/
theorem C1_counterexample :
    (generate_blog_content (some "key") (fun _ => 0)
        (.response 429 { rawText := "Too Many Requests" })
        ⟨[("definition", "kubernetes")], none⟩ "real_abc12345"
        "2025-01-01T00:00:00Z" 100).1.status = "completed" ∧
    (generate_blog_content (some "key") (fun _ => 0)
        (.response 429 { rawText := "Too Many Requests" })
        ⟨[("definition", "kubernetes")], none⟩ "real_abc12345"
        "2025-01-01T00:00:00Z" 100).1.result.metadata.aiGenerated = some false ∧
    (generate_blog_content (some "key") (fun _ => 0)
        (.response 429 { rawText := "Too Many Requests" })
        ⟨[("definition", "kubernetes")], none⟩ "real_abc12345"
        "2025-01-01T00:00:00Z" 100).1.warning = none :=
  ⟨rfl, rfl, rfl⟩

/-- Claim C1 as amended: for every content-generation request whose
primary call fails (non-2xx status, transport error, or unusable body),
the dispatcher returns an envelope with status "completed" — never
"error" — whose content comes from the fallback path.  The
`real-mcp-manager.py` fallback envelope carries the `warning` field; the
8803 service flags fallback only through `metadata.ai_generated = false`
and `metadata.model = "template-fallback"` and carries no warning field. -/
theorem C1_amended_fallback_on_primary_failure :
    (∀ (key : String) (hashFn : String → Int) (upstream : HttpOutcome) (req : Request)
       (execId ts : String) (elapsedMs : Nat) (msg : String),
      call_gemini_api upstream = .error msg →
      (generate_blog_content (some key) hashFn upstream req execId ts
          elapsedMs).1.status = "completed" ∧
      (generate_blog_content (some key) hashFn upstream req execId ts
          elapsedMs).1.status ≠ "error" ∧
      (generate_blog_content (some key) hashFn upstream req execId ts
          elapsedMs).1.result.metadata.aiGenerated = some false ∧
      (generate_blog_content (some key) hashFn upstream req execId ts
          elapsedMs).1.result.metadata.model = some "template-fallback" ∧
      (generate_blog_content (some key) hashFn upstream req execId ts
          elapsedMs).1.result.content
        = generate_fallback_content (requestTopic req) (req.wordCount.getD 800)) ∧
    (∀ (req : Request) (upstream : McpOutcome) (execId : String),
      _call_mcp_service upstream = none →
      (_handle_content_generation req upstream execId).status = "completed" ∧
      (_handle_content_generation req upstream execId).status ≠ "error" ∧
      (_handle_content_generation req upstream execId).fallbackUsed = some true ∧
      (_handle_content_generation req upstream execId).warning
        = some "Using fallback content generation due to MCP service unavailability") := by
  constructor
  · intro key hashFn upstream req execId ts elapsedMs msg h
    refine ⟨?_, ?_, ?_, ?_, ?_⟩ <;> simp [generate_blog_content, h]
  · intro req upstream execId h
    refine ⟨?_, ?_, ?_, ?_⟩ <;>
      simp [_handle_content_generation, h, _send_fallback_response]

/-- Witness for C1 as amended: the 8803 blog handler at a concrete 429
response, and the real-mcp-manager content handler at a concrete 503
response. -/
theorem C1_amended_fallback_on_primary_failure_witness :
    (generate_blog_content (some "key") (fun _ => 0) (.response 429 { rawText := "x" })
        ⟨[], none⟩ "e" "t" 1).1.status = "completed" ∧
    (_handle_content_generation ⟨[("intent", "write about ai")], none⟩
        (.response 503 {}) "uuid-1").warning
      = some "Using fallback content generation due to MCP service unavailability" :=
  ⟨(C1_amended_fallback_on_primary_failure.1 "key" (fun _ => 0)
      (.response 429 { rawText := "x" }) ⟨[], none⟩ "e" "t" 1
      "Gemini API error: 429 - x" rfl).1,
   (C1_amended_fallback_on_primary_failure.2 ⟨[("intent", "write about ai")], none⟩
      (.response 503 {}) "uuid-1" rfl).2.2.2⟩
